import Mathlib

/-!
Shallow embedding of `src/ctai_excel_reporter/base_excel_reporter.py`
(`class BaseExcelReporter`), the layout and auto-sizing engine of the
excel_reporter repository.

Modelling conventions:
* Python floats are embedded as exact rationals (`ℚ`); Python ints as `ℕ`/`ℤ`.
* The per-instance configuration (`PIXEL_SHEET_WIDTH`, `MAX_CELL_WIDTH`,
  `MIN_CELL_WIDTH`, constructor parameters) is a `Config` record; the class
  constants are Lean constants.
* The mutable reporter object is a `ReporterState`.  Python's `self._cursor`
  is a *list object*; the default argument `cursor=[0, 0]` of
  `set_active_sheet` is a single list created once, which `apply_shift`
  mutates in place.  The state therefore carries both the cursor value and
  the current value of that shared default list, plus a flag recording
  whether `self._cursor` currently *is* that list (aliases it).
* `self._sheet.col_info` (the xlsxwriter per-column width store consulted by
  `__get_col_width` and written by `set_column`) is the partial map
  `colInfo : ℤ → Option ℚ` of the active sheet.
* Calls to `self._sheet.write(row, col, value, fmt)` are logged in `writes`
  (most recent first); the opaque xlsxwriter format objects and the external
  `insert_textbox` / `insert_image` calls carry no reporter state and are
  not modelled beyond their effect on cursor and column widths.
* Python strings are Lean `String`s; where a proof has to compute, the
  character sequence `text.data` is used: `text.split('\n')` becomes
  `text.data.splitOn '\n'` (same semantics for a one-character separator:
  empty text gives one empty line, a trailing separator a trailing empty
  line), and `'%' in col_name` becomes `col_name.toList.contains '%'`
  (substring search for a one-character needle is membership).
-/

namespace ExcelReporter

/-- Embeds `CELL_WIDTH = 8.43` — default Excel cell width (class constant). -/
def CELL_WIDTH : ℚ := 843 / 100

/-- Embeds `PIXEL_CELL_WIDTH = 64` (class constant). -/
def PIXEL_CELL_WIDTH : ℕ := 64

/-- Embeds `PIXEL_ROW_HEIGHT = 20` (class constant). -/
def PIXEL_ROW_HEIGHT : ℕ := 20

/-- Embeds the class-constant ratio `CELL_WIDTH / PIXEL_CELL_WIDTH`. -/
def PIXEL_TO_WIDTH_RATIO : ℚ := CELL_WIDTH / (PIXEL_CELL_WIDTH : ℚ)

/-- Embeds `PIXEL_CHAR_WIDTH = int(8 * 1.125) = 9` (class constant). -/
def PIXEL_CHAR_WIDTH : ℕ := 9

/-- Constructor parameters of `BaseExcelReporter.__init__` that the layout
functions read back (`excel_path` is only handed to xlsxwriter).  The
constructor performs no validation on these values. -/
structure Config where
  PIXEL_SHEET_WIDTH : ℕ := 1200
  MAX_CELL_WIDTH : ℚ := 24
  MIN_CELL_WIDTH : ℚ := 7 / 2
deriving Repr

/-- pandas dtype of a table column, as far as `__get_number_format`
inspects it (`is_integer_dtype` / `is_float_dtype` / anything else). -/
inductive Dtype where
  | integer : Dtype
  | float : Dtype
  | other : Dtype
deriving DecidableEq, Repr

/-- A Python value as far as the reporter observes it: a number, a string,
or any other object together with its `str(...)` representation. -/
inductive Pyval where
  | num : ℚ → Pyval
  | str : String → Pyval
  | obj : String → Pyval
deriving DecidableEq, Repr

/-- Python's `str(value)` for a `Pyval` (numbers keep an abstract printed
form irrelevant to the claims; strings print themselves; other objects
print their carried representation). -/
def pyStr : Pyval → String
  | Pyval.num q => toString q
  | Pyval.str s => s
  | Pyval.obj s => s

/-- One column of a pandas DataFrame: its name (`df.columns[j]`, modelled
as a string — the reporter's tables use string column labels) and the dtype
of `df[name]`. -/
structure Column where
  name : String
  dtype : Dtype
deriving DecidableEq, Repr

/-- A pandas DataFrame as consumed by `_table`: ordered columns, and
ordered rows each carrying its index label and its cell values (aligned
with `cols`). -/
structure DataFrame where
  cols : List Column
  rows : List (Pyval × List Pyval)
deriving Repr

/-- The mutable state of a `BaseExcelReporter` instance (for the active
sheet).  See the module comment for the aliasing fields. -/
structure ReporterState where
  /-- value of the list `self._cursor` = (row, column) -/
  cursor : ℤ × ℤ
  /-- current value of the shared default-argument list `[0, 0]` of
  `set_active_sheet` (mutated in place whenever `self._cursor` aliases it) -/
  defaultCursor : ℤ × ℤ
  /-- whether `self._cursor` is (aliases) that shared default list -/
  cursorAliased : Bool
  /-- `self._sheet.col_info`: stored column widths of the active sheet -/
  colInfo : ℤ → Option ℚ
  /-- log of `self._sheet.write(row, col, value, ...)` calls, newest first -/
  writes : List (ℤ × ℤ × Pyval)

/-- Reporter right after `__init__`: no writes, empty column store, the
shared default-cursor list holds `[0, 0]`.  (`self._cursor` is `None` until
a sheet is activated; every placement call requires an active sheet, so we
start the cursor at the origin it will receive from `create_empty_sheet`.) -/
def initState : ReporterState :=
  { cursor := (0, 0)
    defaultCursor := (0, 0)
    cursorAliased := false
    colInfo := fun _ => none
    writes := [] }

/-- Embeds `set_active_sheet(self, name, cursor=[0, 0])`:
`self._sheet, self._cursor = self._wb.sheetnames[name], cursor`.
`none` stands for a call that omits the `cursor` argument, which binds
`self._cursor` to the shared (possibly already mutated) default list. -/
def set_active_sheet (s : ReporterState) (cursor : Option (ℤ × ℤ)) :
    ReporterState :=
  match cursor with
  | some c => { s with cursor := c, cursorAliased := false }
  | none => { s with cursor := s.defaultCursor, cursorAliased := true }

/-- Embeds `apply_shift(self, shift)`: `self._cursor[0] += shift[0];
self._cursor[1] += shift[1]` — an in-place mutation, so when `self._cursor`
aliases the shared default list, that list changes too. -/
def apply_shift (s : ReporterState) (shift : ℤ × ℤ) : ReporterState :=
  let c := (s.cursor.1 + shift.1, s.cursor.2 + shift.2)
  { s with
    cursor := c
    defaultCursor := if s.cursorAliased then c else s.defaultCursor }

/-- Embeds `self._sheet.write(row, col, value, fmt)` (format objects not modelled). -/
def sheetWrite (s : ReporterState) (row col : ℤ) (value : Pyval) :
    ReporterState :=
  { s with writes := (row, col, value) :: s.writes }

/-- Embeds `_text(self, string, format=None, shift=(2, 0))`: write the string at
the cursor, then `apply_shift(shift)`. -/
def _text (s : ReporterState) (string : String) (shift : ℤ × ℤ) :
    ReporterState :=
  apply_shift (sheetWrite s s.cursor.1 s.cursor.2 (Pyval.str string)) shift

/-- Embeds `__printed_text_height(self, text)`: loop over `text.split('\n')`
accumulating `len(line) * PIXEL_CHAR_WIDTH // PIXEL_SHEET_WIDTH` plus `1`
per line. -/
def printed_text_height (cfg : Config) (text : String) : ℕ :=
  (text.data.splitOn '\n').foldl
    (fun height line =>
      height + line.length * PIXEL_CHAR_WIDTH / cfg.PIXEL_SHEET_WIDTH + 1) 0

/-- Embeds `__printed_value_width(self, value)`:
`len(str(value)) * PIXEL_CHAR_WIDTH * PIXEL_TO_WIDTH_RATIO`. -/
def printed_value_width (value : Pyval) : ℚ :=
  ((pyStr value).length : ℚ) * (PIXEL_CHAR_WIDTH : ℚ) * PIXEL_TO_WIDTH_RATIO

/-- Embeds `__clip(self, value, lower, upper)`:
`lower if value < lower else upper if value > upper else value`. -/
def clip (value lower upper : ℚ) : ℚ :=
  if value < lower then lower else if value > upper then upper else value

/-- Embeds `__get_col_width(self, col)`: stored width from `self._sheet.col_info`,
or `CELL_WIDTH` when the column has no entry. -/
def get_col_width (s : ReporterState) (col : ℤ) : ℚ :=
  (s.colInfo col).getD CELL_WIDTH

/-- Embeds `__adjust_col_width(self, col_ind, text, col_format)`: store
`clip(printed_value_width(text), MIN_CELL_WIDTH, MAX_CELL_WIDTH)` for the
column (the carried cell format is not modelled). -/
def adjust_col_width (cfg : Config) (s : ReporterState) (col_ind : ℤ)
    (text : Pyval) : ReporterState :=
  let width := clip (printed_value_width text)
    cfg.MIN_CELL_WIDTH cfg.MAX_CELL_WIDTH
  { s with colInfo := fun c => if c = col_ind then some width else s.colInfo c }

/-- The width-adjustment step of `_table`'s header loop (the spec's
`ensureWidth`): `if __get_col_width(col) < __printed_value_width(text):
__adjust_col_width(col, text, default_cell_format)`. -/
def ensure_width (cfg : Config) (s : ReporterState) (col : ℤ)
    (text : Pyval) : ReporterState :=
  if get_col_width s col < printed_value_width text then
    adjust_col_width cfg s col text
  else s

/-- A sequence of `ensure_width` calls, each naming a column and the
candidate text. -/
def applyEnsures (cfg : Config) (s : ReporterState)
    (ops : List (ℤ × Pyval)) : ReporterState :=
  ops.foldl (fun st op => ensure_width cfg st op.1 op.2) s

/-- Embeds `create_empty_sheet(self, name, default_cell_format={})`: fresh sheet,
`set_column('A:ZZ', CELL_WIDTH, fmt)` (stores the default width for columns
0‥701 of the new sheet's `col_info`), then `set_active_sheet(name)` with
the cursor argument omitted. -/
def create_empty_sheet (s : ReporterState) : ReporterState :=
  set_active_sheet
    { s with colInfo := fun c => if 0 ≤ c ∧ c ≤ 701 then some CELL_WIDTH else none }
    none

/-- Embeds `_textbox(self, text, title=None, header_format={}, textbox_format={},
shift=None)`: compute the printed height, insert the textbox at
`(cursor[0]+1, cursor[1])` (external call, not modelled); if a title is
given, copy the cursor into `self._cursor_anchor`, write the title with
shift `[0, 1]`, write `max(3, len(str(title)) * PIXEL_CHAR_WIDTH //
PIXEL_CELL_WIDTH)` empty header cells each with shift `[0, 1]`, then
assign `self._cursor = self._cursor_anchor` (a fresh list, so the cursor
no longer aliases the shared default list); finally apply the given shift,
defaulting to `(text_height + 2, 0)`. -/
def _textbox (cfg : Config) (s : ReporterState) (text : String)
    (title : Option String) (shift : Option (ℤ × ℤ)) : ReporterState :=
  let text_height := printed_text_height cfg text
  let s1 :=
    match title with
    | none => s
    | some t =>
      let anchor := s.cursor
      let sA := _text s t (0, 1)
      let cell_header := t.length * PIXEL_CHAR_WIDTH / PIXEL_CELL_WIDTH
      let sB := (List.range (max 3 cell_header)).foldl
        (fun st _ => _text st "" (0, 1)) sA
      { sB with cursor := anchor, cursorAliased := false }
  apply_shift s1 (shift.getD ((text_height : ℤ) + 2, 0))

/-- The scale computed by `_image`:
`min(1, max_w / width, max_h / height)`. -/
def image_scale (width height max_w max_h : ℚ) : ℚ :=
  min 1 (min (max_w / width) (max_h / height))

/-- Embeds `_image(self, image, image_name, max_pixel_size=(450, 800), ...,
shift=None)`: insert the image at the cursor scaled by
`image_scale` (external call, not modelled), then apply the given shift,
defaulting to `(ceil(height * scale / PIXEL_ROW_HEIGHT) + 1, 0)`. -/
def _image (s : ReporterState) (width height max_w max_h : ℚ)
    (shift : Option (ℤ × ℤ)) : ReporterState :=
  let scale := image_scale width height max_w max_h
  apply_shift s
    (shift.getD (⌈height * scale / (PIXEL_ROW_HEIGHT : ℚ)⌉ + 1, 0))

/-- Embeds `__get_number_format(self, col_name, df)`: percent format when the
column name contains `'%'` (the `isinstance(col_name, str)` guard always
holds in this model, where column labels are strings); otherwise decided by
the dtype of `df[col_name]`, carried here on the column itself. -/
def get_number_format (col_name : String) (dtype : Dtype) : Option String :=
  if col_name.toList.contains '%' then some "0.00%"
  else
    match dtype with
    | Dtype.integer => some "0"
    | Dtype.float => some "0.000"
    | Dtype.other => none

/-- Embeds `__cast_to_str_except_numbers(self, value)`: numbers pass through,
every other value is replaced by its `str(...)` representation. -/
def cast_to_str_except_numbers : Pyval → Pyval
  | Pyval.num q => Pyval.num q
  | v => Pyval.str (pyStr v)

/-- A cell format as composed by `__get_table_item_format`: the number
format returned by `__get_number_format` plus the border flags set by
`set_bottom()` / `set_right()`. -/
structure CellFormat where
  num_format : Option String
  bottom : Bool
  right : Bool
deriving DecidableEq, Repr

/-- Embeds `__get_table_item_format(self, cur_row, cur_col, df)`: build a format
from the column's number format, then set borders — both when
`cur_row == len(df) - 1 and cur_col == len(df.columns) - 1`, bottom alone
when only the row matches, right alone when only the column matches.
Row/column indices are naturals here, so `i == len - 1` is rendered as
`i + 1 = len` (identical over ℤ, including the `len = 0` case where the
Python comparison against `-1` never holds). -/
def get_table_item_format (cur_row cur_col : ℕ) (df : DataFrame) :
    CellFormat :=
  let num_format := (df.cols.get? cur_col).bind
    (fun c => get_number_format c.name c.dtype)
  if cur_row + 1 = df.rows.length ∧ cur_col + 1 = df.cols.length then
    { num_format := num_format, bottom := true, right := true }
  else if cur_row + 1 = df.rows.length then
    { num_format := num_format, bottom := true, right := false }
  else if cur_col + 1 = df.cols.length then
    { num_format := num_format, bottom := false, right := true }
  else
    { num_format := num_format, bottom := false, right := false }

/-- One iteration of `_table`'s header loop at `(j, column)`: width
adjustment against the column name at sheet column
`j + self._cursor[1] + 1`, then the header-cell write
`write(self._cursor[0], j + self._cursor[1] + 1, col_name, col_format)`. -/
def tableHeaderStep (cfg : Config) (st : ReporterState)
    (jc : ℕ × Column) : ReporterState :=
  let col : ℤ := (jc.1 : ℤ) + st.cursor.2 + 1
  let st' := ensure_width cfg st col (Pyval.str jc.2.name)
  sheetWrite st' st'.cursor.1 col (Pyval.str jc.2.name)

/-- One iteration of `_table`'s row loop at `(i, (index, values))`: write
the index label at `(self._cursor[0] + i + 1, self._cursor[1])`, then one
cell write per value at `(self._cursor[0] + i + 1,
self._cursor[1] + j + 1)` (the cell's composed format, built by
`get_table_item_format i j df`, is not part of the write log). -/
def tableRowStep (st : ReporterState)
    (ir : ℕ × Pyval × List Pyval) : ReporterState :=
  let st' := sheetWrite st (st.cursor.1 + (ir.1 : ℤ) + 1) st.cursor.2 ir.2.1
  (List.enum ir.2.2).foldl
    (fun st2 jv =>
      sheetWrite st2 (st2.cursor.1 + (ir.1 : ℤ) + 1)
        (st2.cursor.2 + (jv.1 : ℤ) + 1)
        (cast_to_str_except_numbers jv.2)) st'

/-- Embeds `_table(self, df, table_column_format, table_index_format, shift=None)`:
header loop (width adjustment + header-cell write per column), row loop
(index label write, then one cell write per value), final `apply_shift`
defaulting to `(len(df) + 2, 0)`. -/
def _table (cfg : Config) (s : ReporterState) (df : DataFrame)
    (shift : Option (ℤ × ℤ)) : ReporterState :=
  let s1 := (List.enum df.cols).foldl (tableHeaderStep cfg) s
  let s2 := (List.enum df.rows).foldl tableRowStep s1
  apply_shift s2 (shift.getD ((df.rows.length : ℤ) + 2, 0))

/-- The default configuration of the constructor:
`pixel_sheet_width=1200, max_cell_width=24, min_cell_width=3.5`. -/
def defaultCfg : Config := {}

/-- Reporter state right after `create_empty_sheet` on a fresh instance:
the state every placement sequence starts from. -/
def sheet0 : ReporterState := create_empty_sheet initState

/-- A concrete 3-row, 2-column dataset (second column named with a percent
marker) used to instantiate the universally quantified theorems below. -/
def sampleDF : DataFrame :=
  { cols := [⟨"a", Dtype.integer⟩, ⟨"b%", Dtype.float⟩]
    rows := [(Pyval.str "r0", [Pyval.num 1, Pyval.num 2]),
             (Pyval.str "r1", [Pyval.num 3, Pyval.num 4]),
             (Pyval.str "r2", [Pyval.num 5, Pyval.num 6])] }

/-! ### Basic state lemmas -/

theorem cursor_sheetWrite (s : ReporterState) (r c : ℤ) (v : Pyval) :
    (sheetWrite s r c v).cursor = s.cursor := rfl

theorem writes_sheetWrite (s : ReporterState) (r c : ℤ) (v : Pyval) :
    (sheetWrite s r c v).writes = (r, c, v) :: s.writes := rfl

theorem cursor_ensure_width (cfg : Config) (s : ReporterState) (col : ℤ)
    (t : Pyval) : (ensure_width cfg s col t).cursor = s.cursor := by
  unfold ensure_width adjust_col_width
  split <;> rfl

theorem writes_ensure_width (cfg : Config) (s : ReporterState) (col : ℤ)
    (t : Pyval) : (ensure_width cfg s col t).writes = s.writes := by
  unfold ensure_width adjust_col_width
  split <;> rfl

theorem cursor_apply_shift (s : ReporterState) (shift : ℤ × ℤ) :
    (apply_shift s shift).cursor = (s.cursor.1 + shift.1, s.cursor.2 + shift.2) :=
  rfl

theorem writes_apply_shift (s : ReporterState) (shift : ℤ × ℤ) :
    (apply_shift s shift).writes = s.writes := rfl

theorem foldl_cursor {α : Type} (f : ReporterState → α → ReporterState)
    (hf : ∀ st a, (f st a).cursor = st.cursor) (l : List α)
    (st : ReporterState) : (l.foldl f st).cursor = st.cursor := by
  induction l generalizing st with
  | nil => rfl
  | cons a l ih => rw [List.foldl_cons, ih, hf]

theorem foldl_writes_mem {α : Type} (f : ReporterState → α → ReporterState)
    (hf : ∀ st a v, v ∈ st.writes → v ∈ (f st a).writes) (l : List α)
    (st : ReporterState) (v : ℤ × ℤ × Pyval) (hv : v ∈ st.writes) :
    v ∈ (l.foldl f st).writes := by
  induction l generalizing st with
  | nil => exact hv
  | cons a l ih => exact ih _ (hf _ _ _ hv)

theorem cursor_tableHeaderStep (cfg : Config) (st : ReporterState)
    (jc : ℕ × Column) : (tableHeaderStep cfg st jc).cursor = st.cursor := by
  unfold tableHeaderStep
  rw [cursor_sheetWrite, cursor_ensure_width]

theorem writes_mem_tableHeaderStep (cfg : Config) (st : ReporterState)
    (jc : ℕ × Column) (v : ℤ × ℤ × Pyval) (hv : v ∈ st.writes) :
    v ∈ (tableHeaderStep cfg st jc).writes := by
  unfold tableHeaderStep
  rw [writes_sheetWrite, writes_ensure_width]
  exact List.mem_cons_of_mem _ hv

theorem cursor_tableRowStep (st : ReporterState)
    (ir : ℕ × Pyval × List Pyval) : (tableRowStep st ir).cursor = st.cursor := by
  unfold tableRowStep
  rw [foldl_cursor _ (fun st2 jv => cursor_sheetWrite ..), cursor_sheetWrite]

theorem writes_mem_tableRowStep (st : ReporterState)
    (ir : ℕ × Pyval × List Pyval) (v : ℤ × ℤ × Pyval) (hv : v ∈ st.writes) :
    v ∈ (tableRowStep st ir).writes := by
  unfold tableRowStep
  exact foldl_writes_mem _
    (fun st2 jv w hw => by rw [writes_sheetWrite]; exact List.mem_cons_of_mem _ hw)
    _ _ _ (by rw [writes_sheetWrite]; exact List.mem_cons_of_mem _ hv)

/-! ### Claims -/

/-- Claim C1: for a rendered table with `R ≥ 1` data rows and `C ≥ 1`
columns, the border overlay of `__get_table_item_format` is exact on every
data cell `(i, j)`: the bottom border is set iff `i = R - 1` and the right
border is set iff `j = C - 1` (so the corner cell gets both and all other
cells get only the border(s) of the line they sit on). -/
theorem claim_C1 (df : DataFrame) (i j : ℕ)
    (hR : 1 ≤ df.rows.length) (hC : 1 ≤ df.cols.length)
    (hi : i < df.rows.length) (hj : j < df.cols.length) :
    ((get_table_item_format i j df).bottom = true ↔ i = df.rows.length - 1) ∧
    ((get_table_item_format i j df).right = true ↔ j = df.cols.length - 1) := by
  unfold get_table_item_format
  split_ifs with h1 h2 h3 <;> simp_all <;> omega

/-- Witness for C1 at the corner cell of the concrete 3×2 dataset. -/
theorem claim_C1_witness :
    (1 ≤ sampleDF.rows.length ∧ 1 ≤ sampleDF.cols.length ∧
      2 < sampleDF.rows.length ∧ 1 < sampleDF.cols.length) ∧
    (((get_table_item_format 2 1 sampleDF).bottom = true ↔
        2 = sampleDF.rows.length - 1) ∧
     ((get_table_item_format 2 1 sampleDF).right = true ↔
        1 = sampleDF.cols.length - 1)) :=
  ⟨by decide,
   claim_C1 sampleDF 2 1 (by decide) (by decide) (by decide) (by decide)⟩

/-- Claim C4: `__clip` returns `lower` when `value < lower`, else `upper`
when `value > upper`, else `value` (strict comparisons, so boundary-exact
values pass through); consequently for `lo ≤ hi` the result lies in
`[lo, hi]`, equals `v` whenever `lo ≤ v ≤ hi`, and equals `hi` whenever
`v > hi`. -/
theorem claim_C4 (v lo hi : ℚ) :
    (v < lo → clip v lo hi = lo) ∧
    (lo ≤ v → hi < v → clip v lo hi = hi) ∧
    (lo ≤ v → v ≤ hi → clip v lo hi = v) ∧
    (lo ≤ hi → lo ≤ clip v lo hi ∧ clip v lo hi ≤ hi) ∧
    (lo ≤ hi → hi < v → clip v lo hi = hi) := by
  refine ⟨fun h => ?_, fun h1 h2 => ?_, fun h1 h2 => ?_, fun h => ?_,
    fun h1 h2 => ?_⟩ <;>
    unfold clip <;> split_ifs <;>
    first
      | rfl
      | linarith
      | exact ⟨by linarith, by linarith⟩

/-- Witness for C4 at concrete inputs below, inside, and above the bounds. -/
theorem claim_C4_witness :
    clip 1 2 5 = 2 ∧ clip 7 2 5 = 5 ∧ clip 3 2 5 = 3 ∧
    (2 ≤ clip 9 2 5 ∧ clip 9 2 5 ≤ 5) :=
  ⟨(claim_C4 1 2 5).1 (by norm_num),
   (claim_C4 7 2 5).2.1 (by norm_num) (by norm_num),
   (claim_C4 3 2 5).2.2.1 (by norm_num) (by norm_num),
   (claim_C4 9 2 5).2.2.2.1 (by norm_num)⟩

/-- Claim C6, failing trace: activate a sheet with the cursor argument
omitted, shift the cursor by `(2, 0)`, then invoke `set_active_sheet` again
with the argument omitted — the cursor ends at `(2, 0)`, not at the origin,
because `apply_shift` mutated the shared default-argument list `[0, 0]` in
place. -/
theorem claim_C6_failing_trace :
    (set_active_sheet (apply_shift (create_empty_sheet initState) (2, 0))
        none).cursor = (2, 0) ∧
    ((2, 0) : ℤ × ℤ) ≠ (0, 0) :=
  ⟨rfl, by decide⟩

/-- Claim C8: every cell of a table column whose name contains the percent
marker `'%'` receives the percentage number format `0.00%`, whatever the
column's dtype — the percent check precedes the dtype checks in
`__get_number_format`. -/
theorem claim_C8 (df : DataFrame) (i j : ℕ) (c : Column)
    (hc : df.cols.get? j = some c) (hp : '%' ∈ c.name.data) :
    (get_table_item_format i j df).num_format = some "0.00%" := by
  unfold get_table_item_format
  rw [List.get?_eq_getElem?] at hc
  split_ifs <;> simp [hc, get_number_format, hp]

/-- Witness for C8 at the `"b%"` column (a float column) of the concrete
dataset. -/
theorem claim_C8_witness :
    (get_table_item_format 0 1 sampleDF).num_format = some "0.00%" :=
  claim_C8 sampleDF 0 1 ⟨"b%", Dtype.float⟩ (by decide) (by decide)

/-- Claim C9: for an image of positive pixel size `(w, h)` and bound
`(maxW, maxH)`, `_image` computes `scale = min(1, maxW/w, maxH/h)` — so it
never upscales — and, when no explicit shift is given, advances the cursor
by `(ceil(h * scale / PIXEL_ROW_HEIGHT) + 1, 0)`. -/
theorem claim_C9 (s : ReporterState) (w h mw mh : ℚ)
    (hw : 0 < w) (hh : 0 < h) :
    image_scale w h mw mh ≤ 1 ∧
    (_image s w h mw mh none).cursor =
      (s.cursor.1 + (⌈h * image_scale w h mw mh / (PIXEL_ROW_HEIGHT : ℚ)⌉ + 1),
       s.cursor.2) := by
  constructor
  · exact min_le_left _ _
  · simp [_image, apply_shift, image_scale]

/-- Witness for C9: the `(900, 1600)` image bounded by `(450, 800)` scales
by `1/2` and advances the cursor by 41 rows. -/
theorem claim_C9_witness :
    image_scale 900 1600 450 800 = 1 / 2 ∧
    image_scale 900 1600 450 800 ≤ 1 ∧
    (_image sheet0 900 1600 450 800 none).cursor = (41, 0) := by
  have h := claim_C9 sheet0 900 1600 450 800 (by norm_num) (by norm_num)
  have hs : image_scale 900 1600 450 800 = 1 / 2 := by
    unfold image_scale
    norm_num
  refine ⟨hs, h.1, ?_⟩
  rw [h.2, hs]
  norm_num [sheet0, create_empty_sheet, set_active_sheet, initState,
    PIXEL_ROW_HEIGHT]

/-- Claim C10: `_textbox` moves the cursor by exactly the supplied shift,
or by `(printed_text_height(text) + 2, 0)` when no shift is supplied,
whether or not a title is given: the title branch saves the cursor before
writing the title and header cells and restores it before the final
advance, so it has no net effect on the cursor. -/
theorem claim_C10 (cfg : Config) (s : ReporterState) (text : String)
    (title : Option String) (shift : Option (ℤ × ℤ)) :
    (_textbox cfg s text title shift).cursor =
      (s.cursor.1 + (shift.getD ((printed_text_height cfg text : ℤ) + 2, 0)).1,
       s.cursor.2 + (shift.getD ((printed_text_height cfg text : ℤ) + 2, 0)).2) := by
  cases title <;> simp [_textbox, apply_shift]

theorem foldl_height_eq_sum (S : ℕ) (l : List (List Char)) (n : ℕ) :
    l.foldl (fun height line =>
        height + line.length * PIXEL_CHAR_WIDTH / S + 1) n
      = n + (l.map (fun line =>
          line.length * PIXEL_CHAR_WIDTH / S + 1)).sum := by
  induction l generalizing n with
  | nil => simp
  | cons a l ih =>
    rw [List.foldl_cons, ih, List.map_cons, List.sum_cons]
    omega

/-- Claim C5: for sheet pixel width `S > 0`, `__printed_text_height(T)` is
the sum over the lines of `T` (split on line breaks) of
`len(line) * PIXEL_CHAR_WIDTH // S + 1`; the empty string (one empty line)
yields exactly 1, and every text yields at least 1. -/
theorem claim_C5 (cfg : Config) (text : String)
    (hS : 0 < cfg.PIXEL_SHEET_WIDTH) :
    printed_text_height cfg text =
      ((text.data.splitOn '\n').map (fun line =>
        line.length * PIXEL_CHAR_WIDTH / cfg.PIXEL_SHEET_WIDTH + 1)).sum ∧
    printed_text_height cfg "" = 1 ∧
    1 ≤ printed_text_height cfg text := by
  have hsum : ∀ t : String, printed_text_height cfg t =
      ((t.data.splitOn '\n').map (fun line =>
        line.length * PIXEL_CHAR_WIDTH / cfg.PIXEL_SHEET_WIDTH + 1)).sum := by
    intro t
    unfold printed_text_height
    rw [foldl_height_eq_sum]
    omega
  refine ⟨hsum text, ?_, ?_⟩
  · rw [hsum ""]
    simp [List.splitOn]
  · rw [hsum text]
    have hne : text.data.splitOn '\n' ≠ [] := List.splitOnP_ne_nil _ _
    rcases hl : text.data.splitOn '\n' with _ | ⟨a, l⟩
    · exact absurd hl hne
    · rw [List.map_cons, List.sum_cons]
      generalize a.length * PIXEL_CHAR_WIDTH / cfg.PIXEL_SHEET_WIDTH = k
      omega

/-- Witness for C5 at the default sheet width and a two-line text. -/
theorem claim_C5_witness :
    0 < defaultCfg.PIXEL_SHEET_WIDTH ∧
    (printed_text_height defaultCfg "ab\nc" =
      ((("ab\nc" : String).data.splitOn '\n').map (fun line =>
        line.length * PIXEL_CHAR_WIDTH / defaultCfg.PIXEL_SHEET_WIDTH + 1)).sum ∧
     printed_text_height defaultCfg "" = 1 ∧
     1 ≤ printed_text_height defaultCfg "ab\nc") :=
  ⟨by decide, claim_C5 defaultCfg "ab\nc" (by decide)⟩

/-- Claim C3: the width-adjustment step of the table header loop stores
`clip(printed_value_width(text), MIN_CELL_WIDTH, MAX_CELL_WIDTH)` for the
column exactly when the column's current width is strictly below the
un-clipped `printed_value_width(text)` (and touches no other column); in
particular a candidate of computed width 30 under the default bounds
`[3.5, 24]` is clipped to a stored width of 24, not 30. -/
theorem claim_C3 (cfg : Config) (s : ReporterState) (col : ℤ)
    (text : Pyval) :
    ((ensure_width cfg s col text).colInfo col =
      if get_col_width s col < printed_value_width text then
        some (clip (printed_value_width text)
          cfg.MIN_CELL_WIDTH cfg.MAX_CELL_WIDTH)
      else s.colInfo col) ∧
    (∀ c, c ≠ col → (ensure_width cfg s col text).colInfo c = s.colInfo c) ∧
    clip 30 (7 / 2) 24 = 24 := by
  refine ⟨?_, ?_, by norm_num [clip]⟩
  · unfold ensure_width adjust_col_width
    split_ifs
    · simp
    · rfl
  · intro c hc
    unfold ensure_width adjust_col_width
    split_ifs <;> simp [hc]

/-- Witness for C3: adjusting column 1 leaves column 0 untouched. -/
theorem claim_C3_witness :
    (ensure_width defaultCfg sheet0 1 (Pyval.str "w")).colInfo 0 =
      sheet0.colInfo 0 :=
  (claim_C3 defaultCfg sheet0 1 (Pyval.str "w")).2.1 0 (by decide)

theorem headerFold_mem (cfg : Config) (j : ℕ) (c : Column)
    (l : List (ℕ × Column)) (st : ReporterState) (hmem : (j, c) ∈ l) :
    (st.cursor.1, (j : ℤ) + st.cursor.2 + 1, Pyval.str c.name) ∈
      (l.foldl (tableHeaderStep cfg) st).writes := by
  induction l generalizing st with
  | nil => cases hmem
  | cons a l ih =>
    rw [List.foldl_cons]
    rcases List.mem_cons.mp hmem with h1 | h1
    · subst h1
      apply foldl_writes_mem _ (fun st' a' v => writes_mem_tableHeaderStep cfg st' a' v)
      unfold tableHeaderStep
      rw [writes_sheetWrite, cursor_ensure_width]
      exact List.mem_cons_self _ _
    · have hres := ih (tableHeaderStep cfg st a) h1
      rwa [cursor_tableHeaderStep] at hres

/-- Claim C7: `_table` with the default shift advances the cursor by
exactly `(row_count + 2, 0)` — in particular by `(2, 0)` for a zero-row
dataset and `(5, 0)` for a 3-row one — and writes every column header into
the header row (at `(cursorRow, j + cursorCol + 1)`) even when the dataset
has no rows. -/
theorem claim_C7 (cfg : Config) (s : ReporterState) (df : DataFrame) :
    (_table cfg s df none).cursor =
      (s.cursor.1 + ((df.rows.length : ℤ) + 2), s.cursor.2) ∧
    ∀ j c, df.cols.get? j = some c →
      (s.cursor.1, (j : ℤ) + s.cursor.2 + 1, Pyval.str c.name) ∈
        (_table cfg s df none).writes := by
  constructor
  · unfold _table
    rw [cursor_apply_shift,
      foldl_cursor _ (fun st a => cursor_tableRowStep st a),
      foldl_cursor _ (fun st a => cursor_tableHeaderStep cfg st a)]
    simp
  · intro j c hc
    unfold _table
    rw [writes_apply_shift]
    apply foldl_writes_mem _ (fun st a v => writes_mem_tableRowStep st a v)
    apply headerFold_mem
    rw [List.get?_eq_getElem?] at hc
    exact List.mk_mem_enum_iff_getElem?.mpr hc

/-- Witness for C7: the concrete 3-row, 2-column table advances the cursor
from the origin to `(5, 0)`, with the empty-set header `"b%"` written at
`(0, 2)`. -/
theorem claim_C7_witness :
    (_table defaultCfg sheet0 sampleDF none).cursor = (5, 0) ∧
    ((0 : ℤ), (2 : ℤ), Pyval.str "b%") ∈
      (_table defaultCfg sheet0 sampleDF none).writes := by
  have h := claim_C7 defaultCfg sheet0 sampleDF
  refine ⟨?_, ?_⟩
  · rw [h.1]
    decide
  · have h2 := h.2 1 ⟨"b%", Dtype.float⟩ rfl
    have hcur : sheet0.cursor = ((0 : ℤ), (0 : ℤ)) := rfl
    rw [hcur] at h2
    norm_num at h2
    exact h2

theorem clip_mem (v lo hi : ℚ) (h : lo ≤ hi) :
    lo ≤ clip v lo hi ∧ clip v lo hi ≤ hi := by
  unfold clip
  split_ifs <;> constructor <;> linarith

theorem ensure_width_mono (cfg : Config) (s : ReporterState) (col : ℤ)
    (t : Pyval)
    (hupper : ∀ c, get_col_width s c ≤ cfg.MAX_CELL_WIDTH) (c : ℤ) :
    get_col_width s c ≤ get_col_width (ensure_width cfg s col t) c := by
  unfold ensure_width adjust_col_width
  split_ifs with h
  · unfold get_col_width at *
    dsimp only
    by_cases hc : c = col
    · subst hc
      rw [if_pos rfl, Option.getD_some]
      unfold clip
      split_ifs <;> [linarith; exact hupper c; linarith]
    · rw [if_neg hc]
  · exact le_refl _

theorem ensure_width_upper (cfg : Config) (s : ReporterState) (col : ℤ)
    (t : Pyval) (hb : cfg.MIN_CELL_WIDTH ≤ cfg.MAX_CELL_WIDTH)
    (hupper : ∀ c, get_col_width s c ≤ cfg.MAX_CELL_WIDTH) (c : ℤ) :
    get_col_width (ensure_width cfg s col t) c ≤ cfg.MAX_CELL_WIDTH := by
  unfold ensure_width adjust_col_width
  split_ifs with h
  · unfold get_col_width
    dsimp only
    by_cases hc : c = col
    · rw [if_pos hc, Option.getD_some]
      exact (clip_mem _ _ _ hb).2
    · rw [if_neg hc]
      exact hupper c
  · exact hupper c

theorem ensure_width_changed (cfg : Config) (s : ReporterState) (col : ℤ)
    (t : Pyval) (hb : cfg.MIN_CELL_WIDTH ≤ cfg.MAX_CELL_WIDTH) (c : ℤ) :
    (ensure_width cfg s col t).colInfo c = s.colInfo c ∨
    ∃ w, (ensure_width cfg s col t).colInfo c = some w ∧
      cfg.MIN_CELL_WIDTH ≤ w ∧ w ≤ cfg.MAX_CELL_WIDTH := by
  unfold ensure_width adjust_col_width
  split_ifs with h
  · dsimp only
    by_cases hc : c = col
    · exact Or.inr ⟨_, if_pos hc, (clip_mem _ _ _ hb).1, (clip_mem _ _ _ hb).2⟩
    · exact Or.inl (if_neg hc)
  · exact Or.inl rfl

/-- Claim C2, counterexample to the claim as stated: the constructor
accepts `max_cell_width = 5`, below the default column width
`CELL_WIDTH = 8.43` that `create_empty_sheet` stores for every column —
so the very first width adjustment *decreases* the stored width of
column 1 (from 8.43 to the clipped 5). -/
theorem claim_C2_counterexample :
    get_col_width
        (applyEnsures ⟨1200, 5, 7 / 2⟩ sheet0 [(1, Pyval.str "abcdefghi")]) 1
      < get_col_width sheet0 1 := by
  have hlen : ("abcdefghi" : String).length = 9 := rfl
  have h0 : get_col_width sheet0 1 = 843 / 100 := by
    simp [get_col_width, sheet0, create_empty_sheet, set_active_sheet,
      initState, CELL_WIDTH]
  have hneed : printed_value_width (Pyval.str "abcdefghi") = 68283 / 6400 := by
    simp [printed_value_width, pyStr, hlen, PIXEL_CHAR_WIDTH,
      PIXEL_TO_WIDTH_RATIO, CELL_WIDTH, PIXEL_CELL_WIDTH]
    norm_num
  have hcond : get_col_width sheet0 1 <
      printed_value_width (Pyval.str "abcdefghi") := by
    rw [h0, hneed]
    norm_num
  have hL : get_col_width
      (ensure_width ⟨1200, 5, 7 / 2⟩ sheet0 1 (Pyval.str "abcdefghi")) 1 = 5 := by
    unfold ensure_width
    rw [if_pos hcond]
    unfold adjust_col_width get_col_width
    dsimp only
    rw [if_pos rfl, Option.getD_some, hneed]
    unfold clip
    rw [if_neg (by norm_num), if_pos (by norm_num)]
  show get_col_width
      (ensure_width ⟨1200, 5, 7 / 2⟩ sheet0 1 (Pyval.str "abcdefghi")) 1
    < get_col_width sheet0 1
  rw [hL, h0]
  norm_num

/-- Claim C2, amended: provided `min_cell_width ≤ max_cell_width` and every
column width of the start state (the unset-column default `CELL_WIDTH`
included) is at most `max_cell_width` — as holds after `create_empty_sheet`
whenever `CELL_WIDTH = 8.43 ≤ max_cell_width`, in particular in the default
configuration — across any sequence of width-adjustment calls no column
width ever decreases, and every width the sequence stores lies in
`[MIN_CELL_WIDTH, MAX_CELL_WIDTH]`.  (The constructor also accepts
`max_cell_width < 8.43`, where the first adjustment shrinks a column: see
the counterexample.) -/
theorem claim_C2 (cfg : Config) (ops : List (ℤ × Pyval))
    (s : ReporterState)
    (hb : cfg.MIN_CELL_WIDTH ≤ cfg.MAX_CELL_WIDTH)
    (hs : ∀ c, get_col_width s c ≤ cfg.MAX_CELL_WIDTH) :
    (∀ c, get_col_width s c ≤ get_col_width (applyEnsures cfg s ops) c) ∧
    (∀ c, (applyEnsures cfg s ops).colInfo c ≠ s.colInfo c →
      ∃ w, (applyEnsures cfg s ops).colInfo c = some w ∧
        cfg.MIN_CELL_WIDTH ≤ w ∧ w ≤ cfg.MAX_CELL_WIDTH) := by
  induction ops generalizing s with
  | nil => exact ⟨fun c => le_refl _, fun c hne => absurd rfl hne⟩
  | cons op rest ih =>
    have hstep : applyEnsures cfg s (op :: rest) =
        applyEnsures cfg (ensure_width cfg s op.1 op.2) rest := rfl
    have hs1 : ∀ c, get_col_width (ensure_width cfg s op.1 op.2) c ≤
        cfg.MAX_CELL_WIDTH := ensure_width_upper cfg s op.1 op.2 hb hs
    have ihh := ih (ensure_width cfg s op.1 op.2) hs1
    rw [hstep]
    constructor
    · intro c
      exact le_trans (ensure_width_mono cfg s op.1 op.2 hs c) (ihh.1 c)
    · intro c hne
      by_cases hfin : (applyEnsures cfg (ensure_width cfg s op.1 op.2) rest).colInfo c
          = (ensure_width cfg s op.1 op.2).colInfo c
      · rcases ensure_width_changed cfg s op.1 op.2 hb c with heq | ⟨w, hw, h1, h2⟩
        · exact absurd (hfin.trans heq) hne
        · exact ⟨w, hfin.trans hw, h1, h2⟩
      · exact ihh.2 c hfin

/-- Witness for C2 (amended) in the default configuration, starting from a
freshly created sheet, adjusting column 1 once and observing column 1. -/
theorem claim_C2_witness :
    get_col_width sheet0 1 ≤
      get_col_width
        (applyEnsures defaultCfg sheet0 [(1, Pyval.str "hello")]) 1 :=
  (claim_C2 defaultCfg [(1, Pyval.str "hello")] sheet0
    (by norm_num [defaultCfg])
    (fun c => by
      simp only [get_col_width, sheet0, create_empty_sheet, set_active_sheet,
        initState, defaultCfg]
      split_ifs <;> simp [CELL_WIDTH] <;> norm_num)).1 1

end ExcelReporter
